import Mathlib

/-!
Shallow embedding of the geobox backend layer:
`pygeobox/api/backend/elastic.py` (collection and item lifecycle against an
Elasticsearch-like document engine, and the retention sweep) and
`pygeobox/env.py` (module-level environment loading and the
required-variables check).  The engine itself is modelled as an explicit
state (a list of named indices, each holding documents); each engine client
call becomes a function on that state, and each backend method is a direct
translation of the Python method body.
-/

namespace Geobox

/-- Python per-character ASCII lowering, the effect of `str.lower()` on the
identifiers this code handles (modelled with `Char.toLower`). -/
def pyLower (s : String) : String :=
  String.mk (s.data.map Char.toLower)

/-- Python `str.replace` specialised to the single-character pattern
`replace(':', '-')`, which substitutes character by character. -/
def pyReplaceColonDash (s : String) : String :=
  String.mk (s.data.map (fun c => if c = ':' then '-' else c))

/-- Translation of `ElasticBackend.es_id` (elastic.py:117-126):
`return collection_id.lower().replace(':', '-')`. -/
def es_id (collection_id : String) : String :=
  pyReplaceColonDash (pyLower collection_id)

/-- Value held in a document property map: an opaque string, or a timestamp
(the `date`-mapped fields `resultTime` and `pubTime`) modelled as an integer
so the engine's `range`/`lte` comparison is meaningful. -/
inductive PVal where
  | s (v : String)
  | t (v : Int)
deriving DecidableEq

/-- A GeoJSON feature as this backend handles it: a top-level `id` used as
the document key, an opaque `geometry` payload, and a `properties` map. -/
structure Feature where
  id : String
  geometry : String
  properties : List (String × PVal)
deriving DecidableEq

/-- Association-list lookup, first binding wins; stands for Python `dict`
read access on the modelled maps. -/
def alookup {α : Type} : List (String × α) → String → Option α
  | [], _ => none
  | (k, v) :: rest, key => if k = key then some v else alookup rest key

/-- Python `dict` assignment `d[key] = v`: replace the value of the first
binding of the key in place, or append a new binding. -/
def aset {α : Type} : List (String × α) → String → α → List (String × α)
  | [], key, v => [(key, v)]
  | (k, w) :: rest, key, v =>
      if k = key then (k, v) :: rest else (k, w) :: aset rest key v

/-- State of the search engine: its indices, each a name paired with the
documents it stores.  Every write this backend performs uses the document's
top-level `id` as the engine key `_id`, so documents are keyed here by their
`id` field. -/
structure ESState where
  indices : List (String × List Feature)
deriving DecidableEq

/-- Engine call `conn.indices.exists(name)`. -/
def indicesExists (st : ESState) (name : String) : Bool :=
  (alookup st.indices name).isSome

/-- Engine call `conn.indices.create(index=name, body=settings)`: provisions
an empty index with the fixed `SETTINGS` mapping (the mapping carries no
document-level content to model); the engine rejects a duplicate creation. -/
def indicesCreate (st : ESState) (name : String) : Except String ESState :=
  if indicesExists st name then
    Except.error ("index " ++ name ++ " already exists")
  else
    Except.ok { indices := st.indices ++ [(name, [])] }

/-- Engine call `conn.indices.delete(index=name)`: removes the index, and
errors when it is absent. -/
def indicesDelete (st : ESState) (name : String) : Except String ESState :=
  if indicesExists st name then
    Except.ok { indices := st.indices.filter (fun p => p.1 != name) }
  else
    Except.error ("index " ++ name ++ " not found")

/-- Engine call `conn.delete(index=..., id=...)`: removes one document; the
client raises when the index or the document is absent (engine 404). -/
def connDelete (st : ESState) (index : String) (docId : String) :
    Except String ESState :=
  match alookup st.indices index with
  | none => Except.error ("index " ++ index ++ " not found")
  | some docs =>
      if docs.any (fun d => d.id == docId) then
        Except.ok
          { indices := st.indices.map (fun p =>
              if p.1 == index then
                (p.1, p.2.filter (fun d => d.id != docId))
              else p) }
      else
        Except.error ("document " ++ docId ++ " not found")

/-- One bulk action yielded by `gendata` (elastic.py:207-211): the target
`_index`, the document key `_id`, and the `_source` body. -/
structure Action where
  index : String
  docId : String
  source : Feature
deriving DecidableEq

/-- In-place enrichment `gendata` performs on each feature before yielding
it (elastic.py:205): `feature['properties']['id'] = feature['id']`. -/
def enrich (f : Feature) : Feature :=
  { f with properties := aset f.properties "id" (PVal.s f.id) }

/-- Translation of the generator `gendata(features)` (elastic.py:198-211):
for each feature, mutate `properties['id']` and yield the bulk action whose
`_id` is the feature's top-level `id` and whose `_source` is the (mutated)
feature itself. -/
def gendata (es_index : String) : List Feature → List Action
  | [] => []
  | f :: rest =>
      { index := es_index, docId := f.id, source := enrich f }
        :: gendata es_index rest

/-- Writing one document into an index's document list: overwrite the
document with the same key, otherwise append. -/
def putDocs (docs : List Feature) (docId : String) (body : Feature) :
    List Feature :=
  if docs.any (fun d => d.id == docId) then
    docs.map (fun d => if d.id == docId then body else d)
  else
    docs ++ [body]

/-- One bulk `index` action applied to the engine: write into the target
index, auto-creating it when absent (the engine's default on write). -/
def putDoc (st : ESState) (index : String) (docId : String) (body : Feature) :
    ESState :=
  if indicesExists st index then
    { indices := st.indices.map (fun p =>
        if p.1 == index then (p.1, putDocs p.2 docId body) else p) }
  else
    { indices := st.indices ++ [(index, [body])] }

/-- Engine call `helpers.bulk(self.conn, gendata(items))`: consume the
generator and perform every action in order. -/
def bulkRun (st : ESState) (actions : List Action) : ESState :=
  actions.foldl (fun s a => putDoc s a.index a.docId a.source) st

/-- Backend-layer failures.  The Python code raises `RuntimeError` at three
sites (elastic.py:141, 163, 231); the constructors distinguish those raise
sites, which the spec's error taxonomy names `CollectionExistsError`,
`CollectionNotFoundError` and `ItemDeletionError`.  `engine` stands for an
engine-client exception the backend does not catch. -/
inductive BErr where
  | collectionExists (es_index : String)
  | collectionNotFound (es_index : String)
  | itemDeletion (cause : String)
  | engine (cause : String)
deriving DecidableEq

/-- Translation of `ElasticBackend.has_collection` (elastic.py:170-181). -/
def has_collection (st : ESState) (collection_id : String) : Bool :=
  indicesExists st (es_id collection_id)

/-- Translation of `ElasticBackend.add_collection` (elastic.py:128-148):
pre-check through `has_collection`, raise if the normalized index exists,
otherwise create it and return the post-condition existence check. -/
def add_collection (st : ESState) (collection_id : String) :
    Except BErr (Bool × ESState) :=
  let es_index := es_id collection_id
  if has_collection st collection_id then
    Except.error (BErr.collectionExists es_index)
  else
    match indicesCreate st es_index with
    | Except.error e => Except.error (BErr.engine e)
    | Except.ok st1 => Except.ok (has_collection st1 collection_id, st1)

/-- Translation of `ElasticBackend.delete_collection` (elastic.py:150-168):
raise if absent, delete the index if the engine still reports it, and return
the negated post-condition existence check. -/
def delete_collection (st : ESState) (collection_id : String) :
    Except BErr (Bool × ESState) :=
  let es_index := es_id collection_id
  if !has_collection st collection_id then
    Except.error (BErr.collectionNotFound es_index)
  else
    let afterDel :=
      if indicesExists st es_index then indicesDelete st es_index
      else Except.ok st
    match afterDel with
    | Except.error e => Except.error (BErr.engine e)
    | Except.ok st1 => Except.ok (!has_collection st1 collection_id, st1)

/-- Result of an upsert call: the warning messages logged, the caller's
items list after the call (the generator mutates the features in place), and
the engine state. -/
structure UpsertResult where
  warnings : List String
  items : List Feature
  state : ESState
deriving DecidableEq

/-- Translation of `ElasticBackend.upsert_collection_items`
(elastic.py:183-213): when the collection is absent, log a warning and call
`add_collection` with the already-normalized `es_index` (line 196), then
bulk-run the generator's actions. -/
def upsert_collection_items (st : ESState) (collection_id : String)
    (items : List Feature) : Except BErr UpsertResult :=
  let es_index := es_id collection_id
  let createdOrSame : Except BErr (List String × ESState) :=
    if !has_collection st collection_id then
      match add_collection st es_index with
      | Except.error e => Except.error e
      | Except.ok (_, st1) =>
          Except.ok
            (["Index " ++ es_index ++ " does not exist.  Creating"], st1)
    else
      Except.ok ([], st)
  match createdOrSame with
  | Except.error e => Except.error e
  | Except.ok (warns, st1) =>
      Except.ok
        { warnings := warns,
          items := items.map enrich,
          state := bulkRun st1 (gendata es_index items) }

/-- Translation of `ElasticBackend.delete_collection_item`
(elastic.py:215-233): call the engine with `index=collection_id` — the raw
identifier, not `es_id(collection_id)` (line 227) — wrap any exception into
the item-deletion error carrying the cause, and return `True` on success. -/
def delete_collection_item (st : ESState) (collection_id : String)
    (item_id : String) : Except BErr (Bool × ESState) :=
  match connDelete st collection_id item_id with
  | Except.error err =>
      Except.error (BErr.itemDeletion ("Item deletion failed: " ++ err))
  | Except.ok st1 => Except.ok (true, st1)

/-- Modelled from the spec: `datetime_days_ago` lives in `pygeobox.util`,
which is not among the sources here; the spec states "threshold = current
time minus `days`".  Time is an integer timestamp and the current time is an
explicit parameter (the source reads the clock once, before the loop). -/
def datetime_days_ago (now : Int) (days : Int) : Int :=
  now - days

/-- One `range` clause of the retention query, with its inclusive upper
bound `lte`. -/
structure RangeLte where
  field : String
  lte : Int
deriving DecidableEq

/-- The `query_by_date` body (elastic.py:248-266): a `bool`/`should`
disjunction of two inclusive range clauses on `properties.resultTime` and
`properties.pubTime`. -/
def query_by_date (before : Int) : List RangeLte :=
  [ { field := "properties.resultTime", lte := before },
    { field := "properties.pubTime", lte := before } ]

/-- Dotted field-path resolution on a document, for the two paths the
retention query uses. -/
def docField (f : Feature) (path : String) : Option PVal :=
  if path = "properties.resultTime" then alookup f.properties "resultTime"
  else if path = "properties.pubTime" then alookup f.properties "pubTime"
  else none

/-- Engine semantics of a `bool` query whose `should` list holds `range`
clauses: a document matches when at least one clause holds, and an `lte`
range clause holds when the date field is present and at most the bound. -/
def matchesShould (q : List RangeLte) (f : Feature) : Bool :=
  q.any (fun r =>
    match docField f r.field with
    | some (PVal.t v) => decide (v ≤ r.lte)
    | _ => false)

/-- Engine call `conn.delete_by_query(index=index, body=query)`: drop every
matching document from the named index (the sweep only issues it for names
the engine just listed). -/
def delete_by_query (st : ESState) (index : String) (q : List RangeLte) :
    ESState :=
  { indices := st.indices.map (fun p =>
      if p.1 == index then
        (p.1, p.2.filter (fun f => !matchesShould q f))
      else p) }

/-- Translation of `ElasticBackend.delete_collections_by_retention`
(elastic.py:235-272): list all index names (`conn.indices.get('*')`),
compute the threshold once with `datetime_days_ago`, build `query_by_date`
once, then issue one delete-by-query per index. -/
def delete_collections_by_retention (st : ESState) (now : Int) (days : Int) :
    ESState :=
  let indexNames := st.indices.map Prod.fst
  let before := datetime_days_ago now days
  let q := query_by_date before
  indexNames.foldl (fun s index => delete_by_query s index q) st

/-- A module-level Python value, as far as the env-module loop can tell
values apart: `None`, a string, a `Path`, or anything else (modules, the
logger, lists — those are never `None` and never compare equal to a
string). -/
inductive PyVal where
  | none
  | str (v : String)
  | path (v : String)
  | other
deriving DecidableEq

/-- Python `os.environ.get(k)` over an environment given as an association
list. -/
def osGet (env : List (String × String)) (k : String) : Option String :=
  alookup env k

/-- Lifting of an optional environment value to the module-level value it
binds. -/
def optStr : Option String → PyVal
  | Option.none => PyVal.none
  | Option.some v => PyVal.str v

/-- Python `str.rstrip` for the single character in `rstrip('/')`: drop
every trailing slash. -/
def rstripSlash (s : String) : String :=
  String.mk ((s.data.reverse.dropWhile (fun c => c == '/')).reverse)

/-- Python `os.environ.get(k, d)` with a default. -/
def osGetD (env : List (String × String)) (k : String) (d : String) : String :=
  match osGet env k with
  | Option.none => d
  | Option.some v => v

/-- Binding of `STORAGE_DATA_RETENTION_DAYS` (env.py:64-67): `None` when the
variable is unset (the `TypeError` of `int(None)` is caught), otherwise the
parsed integer — a non-`None`, non-string value. -/
def retentionDaysVal (env : List (String × String)) : PyVal :=
  match osGet env "PYGEOBOX_STORAGE_DATA_RETENTION_DAYS" with
  | Option.none => PyVal.none
  | Option.some _ => PyVal.other

/-- Approximation of the strings Python `int()` accepts (an unsigned digit
run); `int` on a set but non-numeric value raises an uncaught `ValueError`
at env.py:65, before the required-variables loop. -/
def pyIntLiteral (s : String) : Bool :=
  !s.data.isEmpty && s.data.all (fun c => c.isDigit)

/-- The module-level bindings of `pygeobox/env.py` in insertion order as
they stand when the loop at env.py:82 runs, i.e. the module `locals()` the
comprehension at env.py:84 iterates.  The interpreter-provided namespace
entries come first: `__doc__` is bound to `None` because env.py has no
module docstring (the header is a comment), so it is a `None`-valued
binding the comprehension can collect; the other dunder entries, the
imports, `LOGGER` and the two list bindings are never `None`, and the
comprehension observes a non-required entry only through the `v is rev`
`None` test, so their exact non-`None` values are collapsed to
`PyVal.str`/`PyVal.other`.  `rev` is bound and is `None` whenever the
comprehension actually runs (it only runs under `if rev is None`).  Only
reached when `PYGEOBOX_DATADIR` and `PYGEOBOX_API_BACKEND_URL` are set, so
those two bindings are built from the given strings. -/
def localsAt (env : List (String × String)) (datadir backendUrl : String) :
    List (String × PyVal) :=
  [ ("__name__", PyVal.str "pygeobox.env"),
    ("__doc__", PyVal.none),
    ("__package__", PyVal.str "pygeobox"),
    ("__loader__", PyVal.other), ("__spec__", PyVal.other),
    ("__file__", PyVal.other), ("__cached__", PyVal.other),
    ("__builtins__", PyVal.other),
    ("click", PyVal.other), ("logging", PyVal.other), ("os", PyVal.other),
    ("Path", PyVal.other), ("cli_helpers", PyVal.other),
    ("setup_logger", PyVal.other), ("load_plugin", PyVal.other),
    ("PLUGINS", PyVal.other), ("LOGGER", PyVal.other),
    ("DATADIR", PyVal.path datadir),
    ("DATADIR_CONFIG", PyVal.path (datadir ++ "/config")),
    ("API_TYPE", optStr (osGet env "PYGEOBOX_API_TYPE")),
    ("API_URL", optStr (osGet env "PYGEOBOX_API_URL")),
    ("API_BACKEND_TYPE", optStr (osGet env "PYGEOBOX_API_BACKEND_TYPE")),
    ("API_BACKEND_URL", PyVal.str (rstripSlash backendUrl)),
    ("DOCKER_API_URL", optStr (osGet env "PYGEOBOX_DOCKER_API_URL")),
    ("AUTH_URL", optStr (osGet env "PYGEOBOX_AUTH_URL")),
    ("URL", optStr (osGet env "PYGEOBOX_URL")),
    ("BROKER_USERNAME", optStr (osGet env "PYGEOBOX_BROKER_USERNAME")),
    ("BROKER_PASSWORD", optStr (osGet env "PYGEOBOX_BROKER_PASSWORD")),
    ("BROKER_HOST", optStr (osGet env "PYGEOBOX_BROKER_HOST")),
    ("BROKER_PORT", optStr (osGet env "PYGEOBOX_BROKER_PORT")),
    ("BROKER_PUBLIC", optStr (osGet env "PYGEOBOX_BROKER_PUBLIC")),
    ("STORAGE_TYPE", optStr (osGet env "PYGEOBOX_STORAGE_TYPE")),
    ("STORAGE_SOURCE", optStr (osGet env "PYGEOBOX_STORAGE_SOURCE")),
    ("STORAGE_USERNAME", optStr (osGet env "PYGEOBOX_STORAGE_USERNAME")),
    ("STORAGE_PASSWORD", optStr (osGet env "PYGEOBOX_STORAGE_PASSWORD")),
    ("STORAGE_INCOMING", optStr (osGet env "PYGEOBOX_STORAGE_INCOMING")),
    ("STORAGE_ARCHIVE", optStr (osGet env "PYGEOBOX_STORAGE_ARCHIVE")),
    ("STORAGE_PUBLIC", optStr (osGet env "PYGEOBOX_STORAGE_PUBLIC")),
    ("STORAGE_DATA_RETENTION_DAYS", retentionDaysVal env),
    ("LOGLEVEL", PyVal.str (osGetD env "PYGEOBOX_LOGGING_LOGLEVEL" "ERROR")),
    ("LOGFILE", PyVal.str (osGetD env "PYGEOBOX_LOGGING_LOGFILE" "stdout")),
    ("missing_environment_variables", PyVal.other),
    ("required_environment_variables", PyVal.other),
    ("rev", PyVal.none) ]

/-- The list `required_environment_variables` (env.py:75-80): the VALUES of
`DATADIR`, `DOCKER_API_URL`, `API_TYPE` and `URL`. -/
def requiredVals (env : List (String × String)) (datadir : String) :
    List PyVal :=
  [ PyVal.path datadir,
    optStr (osGet env "PYGEOBOX_DOCKER_API_URL"),
    optStr (osGet env "PYGEOBOX_API_TYPE"),
    optStr (osGet env "PYGEOBOX_URL") ]

/-- Python membership `k in required_environment_variables` (env.py:84): the
string `k` compared by equality against each element of the VALUE list; it
can only equal an equal string, never `None`, a `Path` or a list. -/
def pyStrInVals (k : String) (vals : List PyVal) : Bool :=
  vals.any (fun v =>
    match v with
    | PyVal.str s => k == s
    | _ => false)

/-- The comprehension `env_var` (env.py:84) as run for a `None`-valued
`rev`: names of `None`-valued module locals that occur among the required
VALUES. -/
def envVarNames (L : List (String × PyVal)) (vals : List PyVal) :
    List String :=
  (L.filter (fun p => p.2 == PyVal.none && pyStrInVals p.1 vals)).map Prod.fst

/-- The loop at env.py:82-88: for each `None`-valued required value, append
`env_var[0]` to `missing_environment_variables` when `env_var` is
non-empty. -/
def computeMissing (L : List (String × PyVal)) (vals : List PyVal) :
    List String :=
  vals.foldl
    (fun acc rev =>
      if rev == PyVal.none then
        match (envVarNames L vals).head? with
        | Option.some k => acc ++ [k]
        | Option.none => acc
      else acc)
    []

/-- Outcome of importing `pygeobox/env.py`. -/
inductive ImportOutcome where
  | configError
  | attributeError
  | valueError
  | environmentError (missing : List String)
  | ok
deriving DecidableEq

/-- Translation of the module-level execution of `pygeobox/env.py` as a
function of the process environment: `Path(None)` at env.py:35 raises a
caught `TypeError` re-raised as the configuration `EnvironmentError`
(env.py:37-40, `configError`); an unset `PYGEOBOX_API_BACKEND_URL` raises an
unguarded `AttributeError` from `None.rstrip` at env.py:45; a set but
non-numeric `PYGEOBOX_STORAGE_DATA_RETENTION_DAYS` raises an uncaught
`ValueError` at env.py:65; then the required-variables loop runs and the
module raises `EnvironmentError` at env.py:93 iff its missing list is
non-empty. -/
def envLoad (env : List (String × String)) : ImportOutcome :=
  match osGet env "PYGEOBOX_DATADIR" with
  | Option.none => ImportOutcome.configError
  | Option.some datadir =>
    match osGet env "PYGEOBOX_API_BACKEND_URL" with
    | Option.none => ImportOutcome.attributeError
    | Option.some backendUrl =>
      let retentionOk :=
        match osGet env "PYGEOBOX_STORAGE_DATA_RETENTION_DAYS" with
        | Option.none => true
        | Option.some s => pyIntLiteral s
      if retentionOk then
        let missing :=
          computeMissing (localsAt env datadir backendUrl)
            (requiredVals env datadir)
        if missing.isEmpty then ImportOutcome.ok
        else ImportOutcome.environmentError missing
      else ImportOutcome.valueError

theorem char_toNat_ofNat_valid (n : Nat) (h : n.isValidChar) :
    (Char.ofNat n).toNat = n := by
  simp only [Char.ofNat, dif_pos h, Char.ofNatAux, Char.toNat, UInt32.toNat]
  exact BitVec.toNat_ofNatLt _ _

theorem charToLower_idem (c : Char) : c.toLower.toLower = c.toLower := by
  by_cases h : c.toNat ≥ 65 ∧ c.toNat ≤ 90
  · have h1 : c.toLower = Char.ofNat (c.toNat + 32) := by
      unfold Char.toLower
      simp [h]
    have hv : (c.toNat + 32).isValidChar := by
      unfold Nat.isValidChar
      omega
    have h2 : (Char.ofNat (c.toNat + 32)).toNat = c.toNat + 32 :=
      char_toNat_ofNat_valid _ hv
    rw [h1]
    unfold Char.toLower
    rw [h2]
    have h3 : ¬(c.toNat + 32 ≥ 65 ∧ c.toNat + 32 ≤ 90) := by omega
    rw [if_neg h3]
  · have h1 : c.toLower = c := by
      unfold Char.toLower
      simp [h]
    rw [h1, h1]

theorem charToLower_eq_colon (c : Char) (h : c.toLower = ':') : c = ':' := by
  by_cases hc : c.toNat ≥ 65 ∧ c.toNat ≤ 90
  · exfalso
    have h1 : c.toLower = Char.ofNat (c.toNat + 32) := by
      unfold Char.toLower
      simp [hc]
    have hv : (c.toNat + 32).isValidChar := by
      unfold Nat.isValidChar
      omega
    have h2 : (Char.ofNat (c.toNat + 32)).toNat = c.toNat + 32 :=
      char_toNat_ofNat_valid _ hv
    have h3 : (':' : Char).toNat = 58 := by decide
    rw [h1] at h
    have := congrArg Char.toNat h
    rw [h2, h3] at this
    omega
  · have h1 : c.toLower = c := by
      unfold Char.toLower
      simp [hc]
    rw [h1] at h
    exact h

theorem es_id_data (s : String) :
    (es_id s).data
      = s.data.map (fun c => if c.toLower = ':' then '-' else c.toLower) := by
  simp only [es_id, pyReplaceColonDash, pyLower, List.map_map]
  rfl

theorem es_id_char_idem (c : Char) :
    (if (if c.toLower = ':' then '-' else c.toLower).toLower = ':' then '-'
     else (if c.toLower = ':' then '-' else c.toLower).toLower)
      = (if c.toLower = ':' then '-' else c.toLower) := by
  by_cases h : c.toLower = ':'
  · rw [if_pos h]
    decide
  · simp only [if_neg h, charToLower_idem c, if_neg h]

theorem es_id_idem (s : String) : es_id (es_id s) = es_id s := by
  have h1 := es_id_data (es_id s)
  rw [es_id_data s] at h1
  rw [List.map_map] at h1
  have h2 : (es_id (es_id s)).data = (es_id s).data := by
    rw [h1, es_id_data s]
    apply List.map_congr_left
    intro c _
    exact es_id_char_idem c
  cases hs : es_id (es_id s)
  cases ht : es_id s
  congr 1
  rw [hs, ht] at h2
  exact h2

/-- C7: the normalization `es_id` is pure and deterministic:
`es_id "A:B:C" = "a-b-c"`, `es_id x = es_id x` for every `x`, and `es_id` is
idempotent on identifiers that are already lowercase and use `-` (no colon
and every character fixed by lowering). -/
theorem es_id_pure_spec :
    es_id "A:B:C" = "a-b-c" ∧
    (∀ x : String, es_id x = es_id x) ∧
    (∀ x : String, (∀ c ∈ x.data, c.toLower = c ∧ c ≠ ':') →
      es_id (es_id x) = es_id x) := by
  refine ⟨by decide, fun x => rfl, fun x _ => es_id_idem x⟩

/-- Witness for C7 at the concrete normalized identifier `"a-b-c"`. -/
theorem es_id_pure_spec_witness : es_id (es_id "a-b-c") = es_id "a-b-c" :=
  es_id_pure_spec.2.2 "a-b-c" (by decide)

theorem alookup_append {α : Type} (l m : List (String × α)) (k : String) :
    alookup (l ++ m) k
      = match alookup l k with
        | some v => some v
        | none => alookup m k := by
  induction l with
  | nil => rfl
  | cons p rest ih =>
      obtain ⟨k1, v1⟩ := p
      by_cases h : k1 = k
      · simp [alookup, h]
      · simp [alookup, h, ih]

theorem alookup_filter_ne {α : Type} (l : List (String × α)) (k : String) :
    alookup (l.filter (fun p => p.1 != k)) k = none := by
  induction l with
  | nil => rfl
  | cons p rest ih =>
      obtain ⟨k1, v1⟩ := p
      by_cases h : k1 = k
      · simp [List.filter_cons, h, ih]
      · simp [List.filter_cons, h, alookup, ih]

theorem alookup_aset_self {α : Type} (l : List (String × α)) (k : String)
    (v : α) : alookup (aset l k v) k = some v := by
  induction l with
  | nil => simp [aset, alookup]
  | cons p rest ih =>
      obtain ⟨k1, w⟩ := p
      by_cases h : k1 = k
      · simp [aset, h, alookup]
      · simp [aset, h, alookup, ih]

theorem alookup_aset_ne {α : Type} (l : List (String × α)) (k k2 : String)
    (v : α) (h : k2 ≠ k) : alookup (aset l k v) k2 = alookup l k2 := by
  induction l with
  | nil => simp [aset, alookup, Ne.symm h]
  | cons p rest ih =>
      obtain ⟨k1, w⟩ := p
      by_cases h1 : k1 = k
      · subst h1
        simp [aset, alookup, Ne.symm h]
      · simp [aset, h1, alookup, ih]

theorem alookup_map_adjust {α : Type} (l : List (String × α)) (i k : String)
    (f : α → α) :
    (alookup (l.map (fun p => if p.1 == i then (p.1, f p.2) else p)) k).isSome
      = (alookup l k).isSome := by
  induction l with
  | nil => rfl
  | cons p rest ih =>
      obtain ⟨k1, v1⟩ := p
      simp only [List.map_cons]
      by_cases hi : (k1 == i) = true
      · rw [if_pos hi]
        simp only [alookup]
        by_cases hk : k1 = k
        · rw [if_pos hk, if_pos hk]
          rfl
        · rw [if_neg hk, if_neg hk]
          exact ih
      · rw [if_neg hi]
        simp only [alookup]
        by_cases hk : k1 = k
        · rw [if_pos hk, if_pos hk]
        · rw [if_neg hk, if_neg hk]
          exact ih

theorem indicesExists_putDoc (st : ESState) (i d : String) (b : Feature)
    (n : String) (h : indicesExists st n = true) :
    indicesExists (putDoc st i d b) n = true := by
  by_cases hcase : indicesExists st i
  · rw [putDoc, if_pos hcase]
    unfold indicesExists at *
    exact
      (alookup_map_adjust st.indices i n
        (fun docs => putDocs docs d b)).trans h
  · rw [putDoc, if_neg hcase]
    unfold indicesExists at *
    show (alookup (st.indices ++ [(i, [b])]) n).isSome = true
    rw [alookup_append]
    cases hn : alookup st.indices n with
    | some v => simp
    | none => rw [hn] at h; simp at h

theorem indicesExists_bulkRun (actions : List Action) (st : ESState)
    (n : String) (h : indicesExists st n = true) :
    indicesExists (bulkRun st actions) n = true := by
  induction actions generalizing st with
  | nil => exact h
  | cons a rest ih => exact ih _ (indicesExists_putDoc _ _ _ _ _ h)

theorem has_collection_after_create (st : ESState) (collection_id : String)
    (h : has_collection st collection_id = false) :
    has_collection
      { indices := st.indices ++ [(es_id collection_id, [])] }
      collection_id = true := by
  unfold has_collection indicesExists at *
  rw [alookup_append]
  cases hn : alookup st.indices (es_id collection_id) with
  | some v => rw [hn] at h; simp at h
  | none => simp [alookup]

theorem add_collection_exists_eq (st : ESState) (collection_id : String)
    (h : has_collection st collection_id = true) :
    add_collection st collection_id
      = Except.error (BErr.collectionExists (es_id collection_id)) := by
  simp [add_collection, h]

theorem add_collection_absent_eq (st : ESState) (collection_id : String)
    (h : has_collection st collection_id = false) :
    add_collection st collection_id
      = Except.ok
          (true, { indices := st.indices ++ [(es_id collection_id, [])] }) := by
  have hpost := has_collection_after_create st collection_id h
  have hne : indicesExists st (es_id collection_id) = false := h
  simp [add_collection, h, indicesCreate, hne, hpost]

/-- C3: `add_collection` pre-checks through `has_collection` and raises the
collection-exists error when the normalized index is already present,
producing no state change; when it is absent it provisions the index and
returns `true`, which is exactly the post-condition existence check
evaluated on the new state. -/
theorem add_collection_spec (st : ESState) (collection_id : String) :
    (has_collection st collection_id = true →
       add_collection st collection_id
         = Except.error (BErr.collectionExists (es_id collection_id))) ∧
    (has_collection st collection_id = false →
       add_collection st collection_id
         = Except.ok
             (true, { indices := st.indices ++ [(es_id collection_id, [])] }) ∧
       has_collection
         { indices := st.indices ++ [(es_id collection_id, [])] }
         collection_id = true) := by
  constructor
  · exact add_collection_exists_eq st collection_id
  · intro h
    exact ⟨add_collection_absent_eq st collection_id h,
           has_collection_after_create st collection_id h⟩

/-- Witness for C3: both branches at concrete states. -/
theorem add_collection_spec_witness :
    add_collection ({ indices := [("a-b", [])] } : ESState) "A:B"
      = Except.error (BErr.collectionExists "a-b") ∧
    add_collection ({ indices := [] } : ESState) "A:B"
      = Except.ok (true, { indices := [("a-b", [])] }) :=
  ⟨(add_collection_spec { indices := [("a-b", [])] } "A:B").1 (by decide),
   ((add_collection_spec { indices := [] } "A:B").2 (by decide)).1⟩

theorem has_collection_after_delete (st : ESState) (collection_id : String) :
    has_collection
      { indices := st.indices.filter (fun p => p.1 != es_id collection_id) }
      collection_id = false := by
  unfold has_collection indicesExists
  rw [alookup_filter_ne]
  rfl

/-- C4: `delete_collection` raises the collection-not-found error when the
collection is absent; when present it removes the index and returns `true`,
which is exactly the negation of the post-condition existence check on the
new state (deletion confirmed). -/
theorem delete_collection_spec (st : ESState) (collection_id : String) :
    (has_collection st collection_id = false →
       delete_collection st collection_id
         = Except.error (BErr.collectionNotFound (es_id collection_id))) ∧
    (has_collection st collection_id = true →
       delete_collection st collection_id
         = Except.ok
             (true,
              { indices :=
                  st.indices.filter (fun p => p.1 != es_id collection_id) }) ∧
       has_collection
         { indices :=
             st.indices.filter (fun p => p.1 != es_id collection_id) }
         collection_id = false) := by
  constructor
  · intro h
    simp [delete_collection, h]
  · intro h
    have hpost := has_collection_after_delete st collection_id
    refine ⟨?_, hpost⟩
    have hex : indicesExists st (es_id collection_id) = true := h
    simp [delete_collection, h, indicesDelete, hex, hpost]

/-- Witness for C4: both branches at concrete states. -/
theorem delete_collection_spec_witness :
    delete_collection ({ indices := [] } : ESState) "A:B"
      = Except.error (BErr.collectionNotFound "a-b") ∧
    delete_collection ({ indices := [("a-b", [])] } : ESState) "A:B"
      = Except.ok (true, { indices := [] }) :=
  ⟨(delete_collection_spec { indices := [] } "A:B").1 (by decide),
   ((delete_collection_spec { indices := [("a-b", [])] } "A:B").2
      (by decide)).1⟩

/-- C5: every bulk action `gendata` yields carries a document body whose
`properties.id` equals the body's (and the item's) top-level `id`, its
document key equals that `id`, and it targets the computed index — the
enrichment is applied before the action is yielded to the bulk write. -/
theorem gendata_enrichment_spec (es_index : String) (items : List Feature)
    (a : Action) (h : a ∈ gendata es_index items) :
    alookup a.source.properties "id" = some (PVal.s a.source.id) ∧
    a.docId = a.source.id ∧ a.index = es_index := by
  induction items with
  | nil => cases h
  | cons f rest ih =>
      rw [gendata] at h
      rcases List.mem_cons.mp h with h1 | h1
      · subst h1
        refine ⟨?_, rfl, rfl⟩
        exact alookup_aset_self f.properties "id" (PVal.s f.id)
      · exact ih h1

/-- Witness for C5 at a one-item batch whose stale `properties.id` gets
overwritten. -/
theorem gendata_enrichment_spec_witness :
    alookup [("id", PVal.s "x")] "id" = some (PVal.s "x") ∧
    ("x" : String) = "x" ∧ ("obs" : String) = "obs" :=
  gendata_enrichment_spec "obs"
    [{ id := "x", geometry := "g", properties := [("id", PVal.s "old")] }]
    { index := "obs", docId := "x",
      source := { id := "x", geometry := "g",
                  properties := [("id", PVal.s "x")] } }
    (by decide)

/-- C8: `delete_collection_item` turns every engine failure into the uniform
item-deletion error carrying the original cause in its message, and on
engine success it always returns `true` — no not-found distinction reaches
the caller. -/
theorem delete_item_wraps_spec (st : ESState) (cid iid : String) :
    (∀ e, connDelete st cid iid = Except.error e →
       delete_collection_item st cid iid
         = Except.error (BErr.itemDeletion ("Item deletion failed: " ++ e))) ∧
    (∀ st1, connDelete st cid iid = Except.ok st1 →
       delete_collection_item st cid iid = Except.ok (true, st1)) := by
  constructor
  · intro e he
    unfold delete_collection_item
    rw [he]
  · intro st1 hs
    unfold delete_collection_item
    rw [hs]

/-- Witness for C8 at a concrete failing engine call. -/
theorem delete_item_wraps_spec_witness :
    delete_collection_item ({ indices := [] } : ESState) "c" "i"
      = Except.error
          (BErr.itemDeletion "Item deletion failed: index c not found") :=
  (delete_item_wraps_spec { indices := [] } "c" "i").1 "index c not found" rfl

/-- C2: four of the five operations address the engine at the normalized
index `es_id collection_id` (visible in their definitions), but
`delete_collection_item` passes the raw `collection_id` (elastic.py:227).
At the concrete state holding index `"a-b"` with document `"x"`, the
collection `"A:B"` exists and holds the item, yet deleting through the
collection identifier fails with an index-not-found cause, while addressing
the normalized name directly succeeds — the code contradicts the backend's
own naming invariant, under which upserted items of collection `"A:B"` live
in index `"a-b"`. -/
theorem delete_item_raw_index_divergence :
    has_collection
      ({ indices :=
          [("a-b", [{ id := "x", geometry := "g", properties := [] }])] }
        : ESState) "A:B" = true ∧
    delete_collection_item
      ({ indices :=
          [("a-b", [{ id := "x", geometry := "g", properties := [] }])] }
        : ESState) "A:B" "x"
      = Except.error
          (BErr.itemDeletion "Item deletion failed: index A:B not found") ∧
    delete_collection_item
      ({ indices :=
          [("a-b", [{ id := "x", geometry := "g", properties := [] }])] }
        : ESState) "a-b" "x"
      = Except.ok (true, { indices := [("a-b", [])] }) :=
  ⟨rfl, rfl, rfl⟩

theorem has_collection_es_id (st : ESState) (collection_id : String) :
    has_collection st (es_id collection_id)
      = has_collection st collection_id := by
  unfold has_collection
  rw [es_id_idem]

theorem upsert_absent_eq (st : ESState) (collection_id : String)
    (items : List Feature) (h : has_collection st collection_id = false) :
    upsert_collection_items st collection_id items
      = Except.ok
          { warnings :=
              ["Index " ++ es_id collection_id ++ " does not exist.  Creating"],
            items := items.map enrich,
            state :=
              bulkRun { indices := st.indices ++ [(es_id collection_id, [])] }
                (gendata (es_id collection_id) items) } := by
  have h2 : has_collection st (es_id collection_id) = false :=
    (has_collection_es_id st collection_id).trans h
  have hadd := add_collection_absent_eq st (es_id collection_id) h2
  rw [es_id_idem] at hadd
  simp [upsert_collection_items, h, hadd]

theorem upsert_present_eq (st : ESState) (collection_id : String)
    (items : List Feature) (h : has_collection st collection_id = true) :
    upsert_collection_items st collection_id items
      = Except.ok
          { warnings := [],
            items := items.map enrich,
            state := bulkRun st (gendata (es_id collection_id) items) } := by
  simp [upsert_collection_items, h]

/-- C6: upserting into a non-existent collection does not fail: the call
auto-creates the collection, emits the warning message, bulk-writes the
items, and afterwards `has_collection` reports the collection present. -/
theorem upsert_autocreate_spec (st : ESState) (collection_id : String)
    (items : List Feature) (h : has_collection st collection_id = false) :
    upsert_collection_items st collection_id items
      = Except.ok
          { warnings :=
              ["Index " ++ es_id collection_id ++ " does not exist.  Creating"],
            items := items.map enrich,
            state :=
              bulkRun { indices := st.indices ++ [(es_id collection_id, [])] }
                (gendata (es_id collection_id) items) } ∧
    has_collection
      (bulkRun { indices := st.indices ++ [(es_id collection_id, [])] }
        (gendata (es_id collection_id) items)) collection_id = true :=
  ⟨upsert_absent_eq st collection_id items h,
   indicesExists_bulkRun _ _ _ (has_collection_after_create st collection_id h)⟩

/-- Witness for C6 at an empty engine and a one-item batch. -/
theorem upsert_autocreate_spec_witness :
    upsert_collection_items ({ indices := [] } : ESState) "A:B"
        [{ id := "x", geometry := "g", properties := [("id", PVal.s "old")] }]
      = Except.ok
          { warnings := ["Index " ++ es_id "A:B" ++ " does not exist.  Creating"],
            items :=
              [{ id := "x", geometry := "g",
                 properties := [("id", PVal.s "old")] }].map enrich,
            state :=
              bulkRun { indices := [] ++ [(es_id "A:B", [])] }
                (gendata (es_id "A:B")
                  [{ id := "x", geometry := "g",
                     properties := [("id", PVal.s "old")] }]) } ∧
    has_collection
      (bulkRun { indices := [] ++ [(es_id "A:B", [])] }
        (gendata (es_id "A:B")
          [{ id := "x", geometry := "g",
             properties := [("id", PVal.s "old")] }])) "A:B" = true :=
  upsert_autocreate_spec { indices := [] } "A:B"
    [{ id := "x", geometry := "g", properties := [("id", PVal.s "old")] }]
    (by decide)

/-- C10: the upsert call always succeeds and hands back the caller's list
with every feature's `properties.id` overwritten in place by its top-level
`id`; the enrichment changes nothing else — the top-level `id`, the
geometry, and every property under a key other than `"id"` are untouched. -/
theorem upsert_mutation_spec (st : ESState) (collection_id : String)
    (items : List Feature) :
    (∃ res, upsert_collection_items st collection_id items = Except.ok res ∧
       res.items = items.map enrich) ∧
    (∀ f : Feature,
       (enrich f).id = f.id ∧
       (enrich f).geometry = f.geometry ∧
       alookup (enrich f).properties "id" = some (PVal.s f.id) ∧
       (∀ k, k ≠ "id" →
          alookup (enrich f).properties k = alookup f.properties k)) := by
  constructor
  · cases h : has_collection st collection_id with
    | true =>
        exact ⟨_, upsert_present_eq st collection_id items h, rfl⟩
    | false =>
        exact ⟨_, upsert_absent_eq st collection_id items h, rfl⟩
  · intro f
    exact ⟨rfl, rfl, alookup_aset_self f.properties "id" (PVal.s f.id),
           fun k hk => alookup_aset_ne f.properties "id" k (PVal.s f.id) hk⟩

/-- Witness for C10 at a concrete feature: a property under another key is
untouched by the enrichment. -/
theorem upsert_mutation_spec_witness :
    alookup
      (enrich { id := "x", geometry := "g",
                properties := [("id", PVal.s "old"), ("v", PVal.t 3)] }).properties
      "v"
      = alookup [("id", PVal.s "old"), ("v", PVal.t 3)] "v" :=
  ((upsert_mutation_spec { indices := [] } "c" []).2
    { id := "x", geometry := "g",
      properties := [("id", PVal.s "old"), ("v", PVal.t 3)] }).2.2.2
    "v" (by decide)

theorem delete_by_query_indices (st : ESState) (index : String)
    (q : List RangeLte) :
    (delete_by_query st index q).indices
      = st.indices.map (fun p =>
          if p.1 == index then
            (p.1, p.2.filter (fun f => !matchesShould q f))
          else p) := rfl

theorem retention_fold (q : List RangeLte) (ns : List String) (st : ESState) :
    (ns.foldl (fun s index => delete_by_query s index q) st).indices
      = st.indices.map (fun p =>
          if p.1 ∈ ns then (p.1, p.2.filter (fun f => !matchesShould q f))
          else p) := by
  induction ns generalizing st with
  | nil =>
      simp
  | cons n rest ih =>
      rw [List.foldl_cons, ih, delete_by_query_indices, List.map_map]
      apply List.map_congr_left
      intro p _
      obtain ⟨k, docs⟩ := p
      by_cases hn : k = n
      · subst hn
        simp only [Function.comp_apply, beq_self_eq_true, if_true]
        by_cases hr : k ∈ rest
        · rw [if_pos hr, if_pos (List.mem_cons_self k rest)]
          simp [List.filter_filter]
        · rw [if_neg hr, if_pos (List.mem_cons_self k rest)]
      · have hb : (k == n) = false := by simp [hn]
        simp only [Function.comp_apply, hb, Bool.false_eq_true, if_false]
        by_cases hr : k ∈ rest
        · rw [if_pos hr, if_pos (List.mem_cons_of_mem n hr)]
        · rw [if_neg hr, if_neg ?_]
          intro hc
          rcases List.mem_cons.mp hc with h1 | h1
          · exact hn h1
          · exact hr h1

/-- C1: the retention sweep touches every index currently in the engine and
deletes from each exactly the documents whose `properties.resultTime` OR
`properties.pubTime` is present and at most `now - days` — an inclusive
boundary.  The threshold is the single value `now - days` for the whole
sweep: the source computes it once, before the per-index loop, and the
embedding reads the clock parameter once accordingly. -/
theorem retention_sweep_spec (st : ESState) (now days : Int) :
    (delete_collections_by_retention st now days).indices
      = st.indices.map (fun p =>
          (p.1, p.2.filter (fun f =>
            !((match alookup f.properties "resultTime" with
               | some (PVal.t v) => decide (v ≤ now - days)
               | _ => false)
              ||
              (match alookup f.properties "pubTime" with
               | some (PVal.t v) => decide (v ≤ now - days)
               | _ => false))))) := by
  unfold delete_collections_by_retention
  rw [retention_fold]
  apply List.map_congr_left
  intro p hp
  rw [if_pos (List.mem_map_of_mem Prod.fst hp)]
  congr 1
  apply List.filter_congr
  intro f _
  congr 1
  simp only [matchesShould, query_by_date, List.any_cons, List.any_nil,
    Bool.or_false]
  rfl

theorem envVarNames_eq_nil (L : List (String × PyVal)) (vals : List PyVal)
    (h : ∀ p ∈ L, p.2 = PyVal.none → pyStrInVals p.1 vals = false) :
    envVarNames L vals = [] := by
  unfold envVarNames
  have hf : L.filter (fun p => p.2 == PyVal.none && pyStrInVals p.1 vals)
      = [] := by
    rw [List.filter_eq_nil_iff]
    intro p hp
    intro hc
    rcases Bool.and_eq_true_iff.mp hc with ⟨h1, h2⟩
    have h1e : p.2 = PyVal.none := by
      exact eq_of_beq h1
    rw [h p hp h1e] at h2
    cases h2
  rw [hf]
  rfl

theorem foldl_no_candidate (vals : List PyVal) (acc : List String) :
    vals.foldl
      (fun acc rev =>
        if rev == PyVal.none then
          match ([] : List String).head? with
          | Option.some k => acc ++ [k]
          | Option.none => acc
        else acc)
      acc = acc := by
  induction vals generalizing acc with
  | nil => rfl
  | cons v rest ih =>
      rw [List.foldl_cons]
      by_cases hv : (v == PyVal.none) = true
      · rw [if_pos hv]
        exact ih acc
      · rw [if_neg hv]
        exact ih acc

theorem computeMissing_eq_nil (L : List (String × PyVal)) (vals : List PyVal)
    (h : envVarNames L vals = []) : computeMissing L vals = [] := by
  unfold computeMissing
  rw [h]
  exact foldl_no_candidate vals []

/-- C9 counterexample: a concrete environment state — `PYGEOBOX_DATADIR` and
`PYGEOBOX_API_BACKEND_URL` set so both earlier import gates pass,
`PYGEOBOX_API_TYPE` set to the literal string `"URL"`, and `PYGEOBOX_URL`
unset — under which the name `"URL"` of the `None`-valued local IS a member
of the required-variable VALUE list, so the loop collects it and the import
raises the `Environment variables not set!` error: the branch is not
unreachable for every environment state. -/
theorem env_required_check_counterexample :
    envLoad
      [("PYGEOBOX_DATADIR", "/data"),
       ("PYGEOBOX_API_BACKEND_URL", "http://x"),
       ("PYGEOBOX_API_TYPE", "URL"),
       ("PYGEOBOX_DOCKER_API_URL", "d")]
      = ImportOutcome.environmentError ["URL"] := rfl

/-- C9 as amended: the loop compares each local variable NAME against the
list of required variable VALUES, so the missing list stays empty — and the
`Environment variables not set!` branch stays unreachable — for every
environment in which no required variable's value equals the name of a
`None`-valued module local (in particular every typical environment); and an
unset `PYGEOBOX_API_BACKEND_URL` makes the import fail earlier, with the
unguarded `AttributeError` from `None.rstrip` at env.py:45. -/
theorem env_required_check_spec :
    (∀ env datadir backendUrl,
       osGet env "PYGEOBOX_DATADIR" = some datadir →
       osGet env "PYGEOBOX_API_BACKEND_URL" = some backendUrl →
       (∀ p ∈ localsAt env datadir backendUrl, p.2 = PyVal.none →
          pyStrInVals p.1 (requiredVals env datadir) = false) →
       computeMissing (localsAt env datadir backendUrl)
           (requiredVals env datadir) = [] ∧
       ∀ m, envLoad env ≠ ImportOutcome.environmentError m) ∧
    (∀ env datadir,
       osGet env "PYGEOBOX_DATADIR" = some datadir →
       osGet env "PYGEOBOX_API_BACKEND_URL" = Option.none →
       envLoad env = ImportOutcome.attributeError) := by
  constructor
  · intro env datadir backendUrl hd hb hcf
    have hm := computeMissing_eq_nil _ _ (envVarNames_eq_nil _ _ hcf)
    refine ⟨hm, ?_⟩
    intro m
    unfold envLoad
    rw [hd, hb]
    cases h5 : osGet env "PYGEOBOX_STORAGE_DATA_RETENTION_DAYS" with
    | none =>
        simp [hm]
    | some s =>
        by_cases h6 : pyIntLiteral s = true
        · simp [h6, hm]
        · simp [h6]
  · intro env datadir hd hb
    unfold envLoad
    rw [hd, hb]

/-- Witness for C9's amended statement: a minimal clash-free environment for
the loop part, and an environment lacking only the backend URL for the
attribute-error part. -/
theorem env_required_check_spec_witness :
    (computeMissing
        (localsAt [("PYGEOBOX_DATADIR", "/d"), ("PYGEOBOX_API_BACKEND_URL", "u")]
          "/d" "u")
        (requiredVals
          [("PYGEOBOX_DATADIR", "/d"), ("PYGEOBOX_API_BACKEND_URL", "u")]
          "/d") = [] ∧
     ∀ m, envLoad [("PYGEOBOX_DATADIR", "/d"), ("PYGEOBOX_API_BACKEND_URL", "u")]
        ≠ ImportOutcome.environmentError m) ∧
    envLoad [("PYGEOBOX_DATADIR", "/d")] = ImportOutcome.attributeError :=
  ⟨env_required_check_spec.1
     [("PYGEOBOX_DATADIR", "/d"), ("PYGEOBOX_API_BACKEND_URL", "u")]
     "/d" "u" rfl rfl (by decide),
   env_required_check_spec.2 [("PYGEOBOX_DATADIR", "/d")] "/d" rfl rfl⟩

end Geobox
